import Mathlib

/-!
Shallow embedding of `pdf_puppeteer/generator.py`: the option mapper
`map_frappe_options_to_puppeteer` and the render invoker `get_pdf`.

Python values appearing in a Frappe options dict are modelled by `Value`;
Python truthiness by `truthy`; `float(x)` by `pyFloat` (returning `none`
where Python raises); `frappe.throw` and uncaught Python exceptions by the
`PyErr` error type of an `Except` result.  The render invoker's external
effects (temp file, subprocess, sink writes) are recorded in an explicit
state `GState`, with the nondeterministic outside world (script discovery,
subprocess outcome) supplied as an `Env` oracle.
-/

deriving instance DecidableEq for Except

namespace PdfPuppeteer

/-- A Python value that can appear in a Frappe options dict:
a string, a number (ints and floats collapsed to `Rat`), a bool, or `None`. -/
inductive Value where
  | vStr (s : String)
  | vNum (q : Rat)
  | vBool (b : Bool)
  | vNone
deriving Repr, DecidableEq

/-- Python truthiness of a `Value` (`if x:`): empty string, zero, `False`
and `None` are falsy, everything else truthy. -/
def truthy : Value → Bool
  | .vStr s => s ≠ ""
  | .vNum q => q ≠ 0
  | .vBool b => b
  | .vNone => false

/-- Truthiness of the result of `dict.get` (absent key, i.e. `None`, is falsy). -/
def truthyO : Option Value → Bool
  | some v => truthy v
  | none => false

/-- A Frappe options dict: association list, first binding wins (`dict.get`). -/
def FrappeOptions := List (String × Value)

/-- Python `options.get(k)`: the value bound to `k`, or `none` when absent. -/
def getOpt (options : FrappeOptions) (k : String) : Option Value :=
  (List.find? (fun p => p.1 = k) options).map (fun p => p.2)

/-- The result of Python `float(x)`: a finite value, an infinity, or NaN. -/
inductive PyFloat where
  | finite (q : Rat)
  | inf (neg : Bool)
  | nan
deriving Repr, DecidableEq

/-- Numeric value of a list of decimal digit characters. -/
def digitsVal (l : List Char) : Nat :=
  l.foldl (fun a c => a * 10 + (c.toNat - 48)) 0

/-- Continue a digit run after its first digit: Python permits single
underscores strictly between digits.  Returns the digits consumed (in
order) and the rest of the input. -/
def digitsCont : List Char → List Char × List Char
  | '_' :: c :: rest =>
      if c.isDigit then
        let (ds, r) := digitsCont rest
        (c :: ds, r)
      else ([], '_' :: c :: rest)
  | c :: rest =>
      if c.isDigit then
        let (ds, r) := digitsCont rest
        (c :: ds, r)
      else ([], c :: rest)
  | [] => ([], [])

/-- A `digitpart` of a Python float literal: one digit, then digits with
optional single interior underscores.  `none` when the input does not start
with a digit; otherwise the digit characters and the remaining input. -/
def digitPart : List Char → Option (List Char × List Char)
  | c :: rest =>
      if c.isDigit then
        let (ds, r) := digitsCont rest
        some (c :: ds, r)
      else none
  | [] => none

/-- Parse an optional exponent suffix (`e`/`E`, optional sign, digitpart)
that must consume the entire rest of the input, applied to mantissa `m`. -/
def parseExpEnd (cs : List Char) (m : Rat) : Option Rat :=
  match cs with
  | [] => some m
  | e :: cs1 =>
      if e = 'e' then
        let (negE, cs2) : Bool × List Char :=
          match cs1 with
          | '+' :: r => (false, r)
          | '-' :: r => (true, r)
          | r => (false, r)
        match digitPart cs2 with
        | some (ds, []) =>
            some (if negE then m / 10 ^ digitsVal ds else m * 10 ^ digitsVal ds)
        | _ => none
      else none

/-- Parse the body of a Python float literal (sign already stripped, input
lowercased): `digitpart? ('.' digitpart?)? exponent?`, at least one digit. -/
def parseFloatBody (cs : List Char) : Option Rat :=
  match digitPart cs with
  | some (ip, rest) =>
      match rest with
      | '.' :: rest2 =>
          match digitPart rest2 with
          | some (fp, rest3) =>
              parseExpEnd rest3 ((digitsVal ip : Rat) + (digitsVal fp : Rat) / 10 ^ fp.length)
          | none => parseExpEnd rest2 (digitsVal ip : Rat)
      | _ => parseExpEnd rest (digitsVal ip : Rat)
  | none =>
      match cs with
      | '.' :: rest2 =>
          match digitPart rest2 with
          | some (fp, rest3) =>
              parseExpEnd rest3 ((digitsVal fp : Rat) / 10 ^ fp.length)
          | none => none
      | _ => none

/-- Strip leading and trailing whitespace from a character list. -/
def trimChars (l : List Char) : List Char :=
  ((l.dropWhile Char.isWhitespace).reverse.dropWhile Char.isWhitespace).reverse

/-- Model of Python `float(s)` on a string: strip surrounding whitespace,
optional sign, then `inf`/`infinity`/`nan` (case-insensitive) or a decimal
literal with optional fraction and exponent.  `none` models `ValueError`. -/
def pyFloatOfString (s : String) : Option PyFloat :=
  let cs := (trimChars s.data).map Char.toLower
  let (neg, cs1) : Bool × List Char :=
    match cs with
    | '+' :: r => (false, r)
    | '-' :: r => (true, r)
    | r => (false, r)
  if cs1 = "inf".data ∨ cs1 = "infinity".data then some (.inf neg)
  else if cs1 = "nan".data then some (.nan)
  else (parseFloatBody cs1).map (fun q => .finite (if neg then -q else q))

/-- Model of Python `float(x)` on a `Value`; `none` models the raised
exception (`ValueError` for strings, `TypeError` for `None`). -/
def pyFloat : Value → Option PyFloat
  | .vStr s => pyFloatOfString s
  | .vNum q => some (.finite q)
  | .vBool b => some (.finite (if b then 1 else 0))
  | .vNone => none

/-- Rendering of a `Value` used in error messages. -/
def valueText : Value → String
  | .vStr s => s
  | .vNum q => toString q
  | .vBool b => if b then "True" else "False"
  | .vNone => "None"

/-- A Python-level failure escaping the bridge: `frappeThrow` models
`frappe.throw(msg)` (the bridge's own classified reporting channel), and
`valueError` models an uncaught builtin exception such as the `ValueError`
raised by `float` on a non-numeric string. -/
inductive PyErr where
  | frappeThrow (msg : String)
  | valueError (msg : String)
deriving Repr, DecidableEq

/-- Whether a failure went through the bridge's own reporting channel
(`frappe.throw`) rather than escaping as an uncaught builtin exception. -/
def PyErr.isClassified : PyErr → Bool
  | .frappeThrow _ => true
  | .valueError _ => false

/-- The mapped `margin` object: one optional entry per side, present
exactly when the code executed `margin['side'] = value`. -/
structure Margin where
  top : Option Value := none
  right : Option Value := none
  bottom : Option Value := none
  left : Option Value := none
deriving Repr, DecidableEq

/-- The `puppeteer_opts` dict built by the mapper: each field is `some`
exactly when the corresponding key was inserted. -/
structure PuppeteerOpts where
  format : Option Value := none
  landscape : Option Bool := none
  margin : Option Margin := none
  printBackground : Option Bool := none
  pageRanges : Option Value := none
  scale : Option PyFloat := none
deriving Repr, DecidableEq

/-- The `# Scale` block: `if scale: puppeteer_opts['scale'] = float(scale)`.
A truthy but unparseable scale raises `ValueError`. -/
def mapScale (sc : Option Value) : Except PyErr (Option PyFloat) :=
  match sc with
  | some v =>
      if truthy v then
        match pyFloat v with
        | some f => .ok (some f)
        | none => .error (.valueError ("could not convert string to float: " ++ valueText v))
      else .ok none
  | none => .ok none

/-- Function `map_frappe_options_to_puppeteer(options)` from `generator.py`:
translate Frappe PDF options to Puppeteer options.  Every block guards on
Python truthiness of `options.get(key)`; the scale block calls `float` and
can therefore raise. -/
def map_frappe_options_to_puppeteer (options : FrappeOptions) :
    Except PyErr PuppeteerOpts :=
  let page_size := getOpt options "page-size"
  let orientation := getOpt options "orientation"
  let margin_top := getOpt options "margin-top"
  let margin_right := getOpt options "margin-right"
  let margin_bottom := getOpt options "margin-bottom"
  let margin_left := getOpt options "margin-left"
  let print_background := getOpt options "print-background"
  let page_ranges := getOpt options "page-ranges"
  match mapScale (getOpt options "scale") with
  | .error e => .error e
  | .ok scaleF =>
      .ok {
        format := if truthyO page_size then page_size else none
        landscape :=
          if orientation = some (.vStr "Landscape") then some true
          else if orientation = some (.vStr "Portrait") then some false
          else none
        margin :=
          if truthyO margin_top || truthyO margin_right
              || truthyO margin_bottom || truthyO margin_left then
            some {
              top := if truthyO margin_top then margin_top else none
              right := if truthyO margin_right then margin_right else none
              bottom := if truthyO margin_bottom then margin_bottom else none
              left := if truthyO margin_left then margin_left else none }
          else none
        printBackground := if truthyO print_background then some true else none
        pageRanges := if truthyO page_ranges then page_ranges else none
        scale := scaleF }

/-- PDF bytes captured from the renderer's standard output. -/
def Bytes := List Nat
deriving DecidableEq, Repr

/-- The `output` argument of `get_pdf`: a filesystem path (Python `str`)
or a writable byte stream (e.g. `BytesIO`). -/
inductive OutputSink where
  | path (p : String)
  | stream
deriving Repr, DecidableEq

/-- Outcome of `subprocess.run(cmd, ..., timeout=30, check=True)` supplied
by the environment: either the deadline fired (`subprocess.run` kills the
child and raises `TimeoutExpired`), or the child exited with a code and
captured stdout (bytes) / stderr (already decoded). -/
inductive SubprocResult where
  | timedOut
  | exited (code : Int) (stdout : Bytes) (stderr : String)
deriving Repr, DecidableEq

/-- The external world a `get_pdf` call observes: the app and bench
directories (`frappe.get_app_path`, `frappe.get_bench_path`), whether
`puppeteer_pdf.js` exists at each candidate location (`os.path.exists`),
and what the renderer subprocess would do if launched. -/
structure Env where
  appPath : String
  benchPath : String
  scriptAtApp : Bool
  scriptAtBench : Bool
  subproc : SubprocResult
deriving Repr, DecidableEq

/-- Trace of the effects a `get_pdf` call performed, observed at the moment
the call returns or its exception escapes:
`tmpWritten`/`tmpExists`/`tmpContent` track the temporary HTML artifact
(`NamedTemporaryFile(delete=False)` then `os.unlink` in the `finally`),
`scriptUsed` the renderer entry point chosen by discovery, `envOptions`
the mapped options serialized into `PDF_OPTIONS_JSON`, `spawned` and
`childRunning` the renderer child process, `fileWrites` the
`open(output, 'wb').write(pdf)` events (path sink), and `streamWrites` the
`output.write(pdf)` events (stream sink). -/
structure GState where
  tmpWritten : Bool := false
  tmpExists : Bool := false
  tmpContent : Option String := none
  scriptUsed : Option String := none
  envOptions : Option PuppeteerOpts := none
  spawned : Bool := false
  childRunning : Bool := false
  fileWrites : List (String × Bytes) := []
  streamWrites : List Bytes := []
deriving Repr, DecidableEq

/-- The state before any effect. -/
def initState : GState := {}

/-- The body of `get_pdf` after the entry point has been located: write the
HTML to a temp file, map the options (which can raise, at a point where the
`try`/`finally` that unlinks the temp file is not yet active), then launch
the renderer under a 30 s deadline and dispatch on its outcome, unlinking
the temp file in the `finally` of every path inside the `try`. -/
def run_renderer (env : Env) (html : String) (options : FrappeOptions)
    (output : OutputSink) (script_path : String) :
    GState × Except PyErr (Option Bytes) :=
  let s1 : GState :=
    { tmpWritten := true, tmpExists := true, tmpContent := some html
      scriptUsed := some script_path }
  match map_frappe_options_to_puppeteer options with
  | .error e => (s1, .error e)
  | .ok popts =>
      let s2 := { s1 with envOptions := some popts, spawned := true, childRunning := true }
      match env.subproc with
      | .timedOut =>
          ({ s2 with childRunning := false, tmpExists := false },
           .error (.frappeThrow "PDF generation timed out."))
      | .exited code stdout stderr =>
          let s3 := { s2 with childRunning := false }
          if code ≠ 0 then
            ({ s3 with tmpExists := false },
             .error (.frappeThrow ("Puppeteer error: " ++ stderr)))
          else if stdout = ([] : Bytes) then
            ({ s3 with tmpExists := false },
             .error (.frappeThrow ("Puppeteer failed to generate PDF: " ++ stderr)))
          else
            let s4 :=
              match output with
              | .path p => { s3 with fileWrites := [(p, stdout)] }
              | .stream => { s3 with streamWrites := [stdout] }
            ({ s4 with tmpExists := false }, .ok none)

/-- Function `get_pdf(print_format, html, options, output, pdf_generator=None)` from
`generator.py`.  Returns the final effect trace together with the call's
result: `.ok v` models returning the Python value `v` (always `None` in
this code), `.error e` models an escaping exception.  A selector other
than `"puppeteer"` returns immediately; otherwise the entry point is
looked up first under the app path and then under the bench path, and if
neither exists `frappe.throw` reports the missing installation before any
file or process is touched. -/
def get_pdf (env : Env) (print_format : String) (html : String)
    (options : FrappeOptions) (output : OutputSink)
    (pdf_generator : Option String := none) :
    GState × Except PyErr (Option Bytes) :=
  if pdf_generator ≠ some "puppeteer" then
    (initState, .ok none)
  else if env.scriptAtApp then
    run_renderer env html options output (env.appPath ++ "/puppeteer_pdf.js")
  else if env.scriptAtBench then
    run_renderer env html options output (env.benchPath ++ "/puppeteer_pdf.js")
  else
    (initState,
     .error (.frappeThrow "Puppeteer script not found. Please ensure puppeteer_pdf.js is installed."))

/-- The option keys the mapper reads; every other key is ignored. -/
def recognizedKeys : List String :=
  ["page-size", "orientation", "margin-top", "margin-right", "margin-bottom",
   "margin-left", "print-background", "page-ranges", "scale"]

/-- Whether the scale entry of an options dict survives `float`: absent or
falsy scales are skipped, truthy ones must parse. -/
def scaleParses (options : FrappeOptions) : Bool :=
  match getOpt options "scale" with
  | some v => !truthy v || (pyFloat v).isSome
  | none => true

/-! ### Helper lemmas -/

theorem getOpt_cons_ne (k k' : String) (v : Value) (options : FrappeOptions)
    (h : k' ≠ k) : getOpt ((k, v) :: options) k' = getOpt options k' := by
  simp [getOpt, List.find?, Ne.symm h]

theorem mapScale_ok_of_parses (options : FrappeOptions)
    (hs : scaleParses options = true) :
    ∃ f, mapScale (getOpt options "scale") = .ok f := by
  unfold scaleParses at hs
  unfold mapScale
  cases hv : getOpt options "scale" with
  | none => exact ⟨none, rfl⟩
  | some v =>
      rw [hv] at hs
      by_cases ht : truthy v
      · simp only [ht, Bool.not_true, Bool.false_or] at hs
        obtain ⟨f, hf⟩ := Option.isSome_iff_exists.mp hs
        exact ⟨some f, by simp [ht, hf]⟩
      · exact ⟨none, by simp [ht]⟩

theorem map_congr_of_getOpt_eq (o1 o2 : FrappeOptions)
    (h : ∀ key ∈ recognizedKeys, getOpt o1 key = getOpt o2 key) :
    map_frappe_options_to_puppeteer o1 = map_frappe_options_to_puppeteer o2 := by
  have h1 := h "page-size" (by simp [recognizedKeys])
  have h2 := h "orientation" (by simp [recognizedKeys])
  have h3 := h "margin-top" (by simp [recognizedKeys])
  have h4 := h "margin-right" (by simp [recognizedKeys])
  have h5 := h "margin-bottom" (by simp [recognizedKeys])
  have h6 := h "margin-left" (by simp [recognizedKeys])
  have h7 := h "print-background" (by simp [recognizedKeys])
  have h8 := h "page-ranges" (by simp [recognizedKeys])
  have h9 := h "scale" (by simp [recognizedKeys])
  simp only [map_frappe_options_to_puppeteer, h1, h2, h3, h4, h5, h6, h7, h8, h9]

theorem map_ok_fields (options : FrappeOptions) (r : PuppeteerOpts)
    (h : map_frappe_options_to_puppeteer options = .ok r) :
    r.format = (if truthyO (getOpt options "page-size")
        then getOpt options "page-size" else none) ∧
    r.landscape = (if getOpt options "orientation" = some (.vStr "Landscape") then some true
        else if getOpt options "orientation" = some (.vStr "Portrait") then some false
        else none) ∧
    r.margin = (if truthyO (getOpt options "margin-top") || truthyO (getOpt options "margin-right")
          || truthyO (getOpt options "margin-bottom") || truthyO (getOpt options "margin-left") then
        some {
          top := if truthyO (getOpt options "margin-top") then getOpt options "margin-top" else none
          right := if truthyO (getOpt options "margin-right") then getOpt options "margin-right" else none
          bottom := if truthyO (getOpt options "margin-bottom") then getOpt options "margin-bottom" else none
          left := if truthyO (getOpt options "margin-left") then getOpt options "margin-left" else none }
      else none) := by
  unfold map_frappe_options_to_puppeteer at h
  cases hm : mapScale (getOpt options "scale") with
  | error e => rw [hm] at h; exact absurd h (by simp)
  | ok f =>
      rw [hm] at h
      simp only [Except.ok.injEq] at h
      subst h
      exact ⟨rfl, rfl, rfl⟩

theorem run_renderer_scriptUsed (env : Env) (html : String) (options : FrappeOptions)
    (output : OutputSink) (script : String) :
    (run_renderer env html options output script).1.scriptUsed = some script := by
  unfold run_renderer
  cases map_frappe_options_to_puppeteer options with
  | error e => rfl
  | ok popts =>
      cases env.subproc with
      | timedOut => rfl
      | exited code stdout stderr =>
          by_cases hc : code ≠ 0
          · simp only [if_pos hc]
          · simp only [if_neg hc]
            by_cases hs : stdout = ([] : Bytes)
            · simp only [if_pos hs]
            · simp only [if_neg hs]
              cases output <;> rfl

theorem run_renderer_success (env : Env) (html : String) (options : FrappeOptions)
    (output : OutputSink) (script : String) (stdout : Bytes) (stderr : String)
    (popts : PuppeteerOpts)
    (hmap : map_frappe_options_to_puppeteer options = .ok popts)
    (hsub : env.subproc = .exited 0 stdout stderr)
    (hne : stdout ≠ ([] : Bytes)) :
    (run_renderer env html options output script).2 = .ok none ∧
    (run_renderer env html options output script).1.tmpWritten = true ∧
    (run_renderer env html options output script).1.tmpExists = false ∧
    (∀ p, output = .path p →
      (run_renderer env html options output script).1.fileWrites = [(p, stdout)] ∧
      (run_renderer env html options output script).1.streamWrites = []) ∧
    (output = .stream →
      (run_renderer env html options output script).1.streamWrites = [stdout] ∧
      (run_renderer env html options output script).1.fileWrites = []) := by
  unfold run_renderer
  rw [hmap, hsub]
  simp only [ne_eq, not_true_eq_false, if_neg, if_false, decide_not]
  rw [if_neg hne]
  cases output with
  | path p0 =>
      refine ⟨rfl, rfl, rfl, fun p hp => ?_, fun hs => ?_⟩
      · injection hp with h
        subst h
        exact ⟨rfl, rfl⟩
      · exact absurd hs (by simp)
  | stream =>
      refine ⟨rfl, rfl, rfl, fun p hp => ?_, fun hs => ?_⟩
      · exact absurd hp (by simp)
      · exact ⟨rfl, rfl⟩

theorem run_renderer_timeout (env : Env) (html : String) (options : FrappeOptions)
    (output : OutputSink) (script : String) (popts : PuppeteerOpts)
    (hmap : map_frappe_options_to_puppeteer options = .ok popts)
    (hsub : env.subproc = .timedOut) :
    (run_renderer env html options output script).2 =
      .error (.frappeThrow "PDF generation timed out.") ∧
    (run_renderer env html options output script).1.spawned = true ∧
    (run_renderer env html options output script).1.childRunning = false ∧
    (run_renderer env html options output script).1.fileWrites = [] ∧
    (run_renderer env html options output script).1.streamWrites = [] ∧
    (run_renderer env html options output script).1.tmpExists = false := by
  unfold run_renderer
  rw [hmap, hsub]
  exact ⟨rfl, rfl, rfl, rfl, rfl, rfl⟩

theorem run_renderer_none_or_error (env : Env) (html : String) (options : FrappeOptions)
    (output : OutputSink) (script : String) :
    (run_renderer env html options output script).2 = .ok none ∨
    ∃ e, (run_renderer env html options output script).2 = .error e := by
  unfold run_renderer
  cases map_frappe_options_to_puppeteer options with
  | error e => exact Or.inr ⟨e, rfl⟩
  | ok popts =>
      cases env.subproc with
      | timedOut => exact Or.inr ⟨_, rfl⟩
      | exited code stdout stderr =>
          dsimp only
          by_cases hc : code ≠ 0
          · rw [if_pos hc]
            exact Or.inr ⟨_, rfl⟩
          · rw [if_neg hc]
            by_cases hs : stdout = ([] : Bytes)
            · rw [if_pos hs]
              exact Or.inr ⟨_, rfl⟩
            · rw [if_neg hs]
              cases output <;> exact Or.inl rfl

theorem string_ne_append_of_take_ne (s t u : String) (n : Nat)
    (hn : n ≤ t.data.length) (hne : s.data.take n ≠ t.data.take n) :
    s ≠ t ++ u := by
  intro h
  apply hne
  rw [h, String.data_append, List.take_append_of_le_length hn]

/-! ### C2: non-numeric scale -/

/-- C2, counterexample: with `scale = "abc"` the call does not report a
classified failure through the bridge's reporting channel (`frappe.throw`);
instead the bare `ValueError` raised by `float` escapes unclassified. -/
theorem c2_counterexample :
    map_frappe_options_to_puppeteer [("scale", Value.vStr "abc")] =
      .error (.valueError "could not convert string to float: abc") ∧
    PyErr.isClassified (.valueError "could not convert string to float: abc") = false := by
  decide

/-- C2, amended: a present, truthy, non-parseable scale makes the mapper
raise the builtin `ValueError` coming out of `float` — an unclassified
exception, not a typed `InvalidOption` failure — and the call never
returns a mapped options object, so the bad scale is not silently
dropped. -/
theorem c2_scale_error_unclassified_not_dropped (options : FrappeOptions) (v : Value)
    (hv : getOpt options "scale" = some v) (ht : truthy v = true)
    (hp : pyFloat v = none) :
    map_frappe_options_to_puppeteer options =
      .error (.valueError ("could not convert string to float: " ++ valueText v)) ∧
    PyErr.isClassified (.valueError ("could not convert string to float: " ++ valueText v)) = false := by
  constructor
  · unfold map_frappe_options_to_puppeteer
    rw [hv]
    unfold mapScale
    simp [ht, hp]
  · rfl

/-- Witness for `c2_scale_error_unclassified_not_dropped` at
`options = [("scale", "2x")]`. -/
theorem c2_scale_error_witness :
    map_frappe_options_to_puppeteer [("scale", Value.vStr "2x")] =
      .error (.valueError ("could not convert string to float: " ++ valueText (Value.vStr "2x"))) :=
  (c2_scale_error_unclassified_not_dropped [("scale", Value.vStr "2x")]
    (Value.vStr "2x") (by decide) (by decide) (by decide)).1

/-! ### C3: totality of the mapper -/

/-- C3, counterexample: the mapper is not total — on
`[("scale", "100%")]` it raises instead of returning a mapped object. -/
theorem c3_counterexample :
    map_frappe_options_to_puppeteer [("scale", Value.vStr "100%")] =
      .error (.valueError "could not convert string to float: 100%") := by
  decide

/-- C3, amended: the mapper is pure and, on every options dict whose scale
entry (when present and truthy) parses as a float, returns a mapped
options object; unrecognized keys are ignored (prepending a binding for
any unrecognized key leaves the output unchanged) and absent fields are
omitted.  Totality fails only on a truthy non-parseable scale. -/
theorem c3_mapper_total_except_bad_scale (options : FrappeOptions) (k : String) (v : Value)
    (hs : scaleParses options = true) (hk : k ∉ recognizedKeys) :
    (∃ r, map_frappe_options_to_puppeteer options = .ok r) ∧
    map_frappe_options_to_puppeteer ((k, v) :: options) =
      map_frappe_options_to_puppeteer options := by
  constructor
  · obtain ⟨f, hf⟩ := mapScale_ok_of_parses options hs
    exact ⟨_, by unfold map_frappe_options_to_puppeteer; rw [hf]⟩
  · refine map_congr_of_getOpt_eq _ _ (fun key hkey => ?_)
    refine getOpt_cons_ne k key v options (fun hcontr => ?_)
    exact hk (hcontr ▸ hkey)

/-- Witness for `c3_mapper_total_except_bad_scale` at
`options = [("page-size", "A4")]`, unknown key `"header-html"`. -/
theorem c3_mapper_total_witness :
    map_frappe_options_to_puppeteer
        [("header-html", Value.vStr "<h1/>"), ("page-size", Value.vStr "A4")] =
      map_frappe_options_to_puppeteer [("page-size", Value.vStr "A4")] :=
  (c3_mapper_total_except_bad_scale [("page-size", Value.vStr "A4")]
    "header-html" (Value.vStr "<h1/>") (by decide) (by decide)).2

/-! ### C7: margin object -/

/-- C7, counterexample: a margin side explicitly set to `0` is NOT
included — with `margin-top = 0` (falsy in Python) no margin object is
emitted at all, so a zero margin is indistinguishable from an unset one. -/
theorem c7_counterexample :
    map_frappe_options_to_puppeteer [("margin-top", Value.vNum 0)] =
      .ok ({} : PuppeteerOpts) ∧
    ({} : PuppeteerOpts).margin = none := by
  decide

/-- C7, amended: the mapper emits a margin object iff at least one of the
four sides is truthy; the emitted object has exactly the keys of the
truthy sides, each carrying the original value; a side set to a falsy
value such as `0` is treated as unset and omitted. -/
theorem c7_margin_truthy_sides (options : FrappeOptions) (r : PuppeteerOpts)
    (h : map_frappe_options_to_puppeteer options = .ok r) :
    (r.margin.isSome = (truthyO (getOpt options "margin-top")
        || truthyO (getOpt options "margin-right")
        || truthyO (getOpt options "margin-bottom")
        || truthyO (getOpt options "margin-left"))) ∧
    (∀ m, r.margin = some m →
      (m.top = if truthyO (getOpt options "margin-top")
          then getOpt options "margin-top" else none) ∧
      (m.right = if truthyO (getOpt options "margin-right")
          then getOpt options "margin-right" else none) ∧
      (m.bottom = if truthyO (getOpt options "margin-bottom")
          then getOpt options "margin-bottom" else none) ∧
      (m.left = if truthyO (getOpt options "margin-left")
          then getOpt options "margin-left" else none)) := by
  have hm := (map_ok_fields options r h).2.2
  constructor
  · rw [hm]
    cases hc : (truthyO (getOpt options "margin-top")
        || truthyO (getOpt options "margin-right")
        || truthyO (getOpt options "margin-bottom")
        || truthyO (getOpt options "margin-left"))
    · simp [hc]
    · simp [hc]
  · intro m hsome
    rw [hm] at hsome
    by_cases hc : (truthyO (getOpt options "margin-top")
        || truthyO (getOpt options "margin-right")
        || truthyO (getOpt options "margin-bottom")
        || truthyO (getOpt options "margin-left")) = true
    · rw [if_pos hc] at hsome
      simp only [Option.some.injEq] at hsome
      subst hsome
      exact ⟨rfl, rfl, rfl, rfl⟩
    · rw [if_neg hc] at hsome
      exact absurd hsome (by simp)

/-- Witness for `c7_margin_truthy_sides` at
`options = [("margin-top", "15mm")]`: exactly one side set, margin object
present with exactly that one key. -/
theorem c7_margin_witness :
    map_frappe_options_to_puppeteer [("margin-top", Value.vStr "15mm")] =
      .ok ({ margin := some { top := some (Value.vStr "15mm") } } : PuppeteerOpts) ∧
    ({ margin := some { top := some (Value.vStr "15mm") } } : PuppeteerOpts).margin.isSome = true :=
  ⟨by decide, by
    rw [(c7_margin_truthy_sides [("margin-top", Value.vStr "15mm")]
      { margin := some { top := some (Value.vStr "15mm") } } (by decide)).1]
    decide⟩

/-! ### C8: orientation -/

/-- C8: `"Landscape"` maps to `landscape = true`, `"Portrait"` to
`landscape = false`, and when orientation is absent the mapped output
contains no landscape field at all. -/
theorem c8_orientation_mapping (options : FrappeOptions) (r : PuppeteerOpts)
    (h : map_frappe_options_to_puppeteer options = .ok r) :
    (getOpt options "orientation" = some (.vStr "Landscape") → r.landscape = some true) ∧
    (getOpt options "orientation" = some (.vStr "Portrait") → r.landscape = some false) ∧
    (getOpt options "orientation" = none → r.landscape = none) := by
  have ho := (map_ok_fields options r h).2.1
  refine ⟨fun hl => ?_, fun hp => ?_, fun hn => ?_⟩
  · rw [ho, if_pos hl]
  · rw [ho, hp]
    simp
  · rw [ho, hn]
    simp

/-- Witness for `c8_orientation_mapping` at
`options = [("orientation", "Landscape")]`. -/
theorem c8_orientation_witness :
    map_frappe_options_to_puppeteer [("orientation", Value.vStr "Landscape")] =
      .ok ({ landscape := some true } : PuppeteerOpts) ∧
    ({ landscape := some true } : PuppeteerOpts).landscape = some true :=
  ⟨by decide,
   (c8_orientation_mapping [("orientation", Value.vStr "Landscape")]
     { landscape := some true } (by decide)).1 (by decide)⟩

/-! ### C1: artifact cleanup -/

/-- C1: the temp-artifact cleanup is NOT guaranteed on every exit path.
Concrete run: the renderer script is present, `scale = "abc"`; the temp
HTML file is written, then `map_frappe_options_to_puppeteer` raises
`ValueError` — before the `try`/`finally` holding `os.unlink` is entered —
so the call escapes with the artifact still on disk (`tmpExists = true`):
the artifact is leaked on the mapping-exception path the claim covers. -/
theorem c1_artifact_leaked_on_mapping_error :
    (get_pdf
        { appPath := "/home/frappe/bench/apps/pdf_puppeteer"
          benchPath := "/home/frappe/bench"
          scriptAtApp := true
          scriptAtBench := false
          subproc := .exited 0 [37] "" }
        "Invoice" "<html></html>" [("scale", Value.vStr "abc")]
        (.path "/tmp/out.pdf") (some "puppeteer")).1.tmpWritten = true ∧
    (get_pdf
        { appPath := "/home/frappe/bench/apps/pdf_puppeteer"
          benchPath := "/home/frappe/bench"
          scriptAtApp := true
          scriptAtBench := false
          subproc := .exited 0 [37] "" }
        "Invoice" "<html></html>" [("scale", Value.vStr "abc")]
        (.path "/tmp/out.pdf") (some "puppeteer")).1.tmpExists = true ∧
    (get_pdf
        { appPath := "/home/frappe/bench/apps/pdf_puppeteer"
          benchPath := "/home/frappe/bench"
          scriptAtApp := true
          scriptAtBench := false
          subproc := .exited 0 [37] "" }
        "Invoice" "<html></html>" [("scale", Value.vStr "abc")]
        (.path "/tmp/out.pdf") (some "puppeteer")).2 =
      .error (.valueError "could not convert string to float: abc") := by
  decide

/-! ### C4: successful render -/

/-- C4: when the renderer exits 0 within the deadline with non-empty
stdout, the call returns normally (Python `None`), the captured bytes are
delivered to the sink — a single create/overwrite of the file when the
sink is a path, a single append when it is a stream, in both cases exactly
the captured bytes — and the temporary input artifact no longer exists. -/
theorem c4_success_delivers_exact_bytes (env : Env) (print_format html : String)
    (options : FrappeOptions) (output : OutputSink) (stdout : Bytes) (stderr : String)
    (popts : PuppeteerOpts)
    (hscript : env.scriptAtApp = true ∨ env.scriptAtBench = true)
    (hmap : map_frappe_options_to_puppeteer options = .ok popts)
    (hsub : env.subproc = .exited 0 stdout stderr)
    (hne : stdout ≠ ([] : Bytes)) :
    (get_pdf env print_format html options output (some "puppeteer")).2 = .ok none ∧
    (get_pdf env print_format html options output (some "puppeteer")).1.tmpWritten = true ∧
    (get_pdf env print_format html options output (some "puppeteer")).1.tmpExists = false ∧
    (∀ p, output = .path p →
      (get_pdf env print_format html options output (some "puppeteer")).1.fileWrites = [(p, stdout)] ∧
      (get_pdf env print_format html options output (some "puppeteer")).1.streamWrites = []) ∧
    (output = .stream →
      (get_pdf env print_format html options output (some "puppeteer")).1.streamWrites = [stdout] ∧
      (get_pdf env print_format html options output (some "puppeteer")).1.fileWrites = []) := by
  unfold get_pdf
  rw [if_neg (by simp)]
  by_cases happ : env.scriptAtApp
  · rw [if_pos happ]
    exact run_renderer_success env html options output _ stdout stderr popts hmap hsub hne
  · have hb : env.scriptAtBench = true := by
      rcases hscript with h | h
      · exact absurd h happ
      · exact h
    rw [if_neg happ, if_pos hb]
    exact run_renderer_success env html options output _ stdout stderr popts hmap hsub hne

/-- Witness for `c4_success_delivers_exact_bytes`: renderer present under
the app path, exits 0 with the one-byte stdout `[37]`, path sink. -/
theorem c4_success_witness :
    (get_pdf
        { appPath := "/a", benchPath := "/b", scriptAtApp := true, scriptAtBench := false
          subproc := .exited 0 [37] "" }
        "fmt" "<html/>" [] (.path "/tmp/out.pdf") (some "puppeteer")).2 = .ok none ∧
    (get_pdf
        { appPath := "/a", benchPath := "/b", scriptAtApp := true, scriptAtBench := false
          subproc := .exited 0 [37] "" }
        "fmt" "<html/>" [] (.path "/tmp/out.pdf") (some "puppeteer")).1.fileWrites =
      [("/tmp/out.pdf", [37])] :=
  ⟨(c4_success_delivers_exact_bytes
      { appPath := "/a", benchPath := "/b", scriptAtApp := true, scriptAtBench := false
        subproc := .exited 0 [37] "" }
      "fmt" "<html/>" [] (.path "/tmp/out.pdf") [37] "" {}
      (Or.inl rfl) (by decide) rfl (by decide)).1,
   ((c4_success_delivers_exact_bytes
      { appPath := "/a", benchPath := "/b", scriptAtApp := true, scriptAtBench := false
        subproc := .exited 0 [37] "" }
      "fmt" "<html/>" [] (.path "/tmp/out.pdf") [37] "" {}
      (Or.inl rfl) (by decide) rfl (by decide)).2.2.2.1 "/tmp/out.pdf" rfl).1⟩

/-! ### C5: timeout -/

/-- C5: when the renderer exceeds the 30 s deadline, the child is no
longer running afterwards (`subprocess.run` kills it before raising),
nothing was delivered to either sink, and the call fails with the message
"PDF generation timed out." — which differs from the message of every
other failure this call can report, so the caller can tell a timeout from
the renderer-failed, empty-output and not-installed failures. -/
theorem c5_timeout_classified (env : Env) (print_format html : String)
    (options : FrappeOptions) (output : OutputSink) (popts : PuppeteerOpts)
    (hscript : env.scriptAtApp = true ∨ env.scriptAtBench = true)
    (hmap : map_frappe_options_to_puppeteer options = .ok popts)
    (hsub : env.subproc = .timedOut) :
    (get_pdf env print_format html options output (some "puppeteer")).2 =
      .error (.frappeThrow "PDF generation timed out.") ∧
    (get_pdf env print_format html options output (some "puppeteer")).1.spawned = true ∧
    (get_pdf env print_format html options output (some "puppeteer")).1.childRunning = false ∧
    (get_pdf env print_format html options output (some "puppeteer")).1.fileWrites = [] ∧
    (get_pdf env print_format html options output (some "puppeteer")).1.streamWrites = [] ∧
    (get_pdf env print_format html options output (some "puppeteer")).1.tmpExists = false ∧
    (∀ stderr, ("PDF generation timed out." : String) ≠ "Puppeteer error: " ++ stderr) ∧
    (∀ stderr, ("PDF generation timed out." : String) ≠
      "Puppeteer failed to generate PDF: " ++ stderr) ∧
    ("PDF generation timed out." : String) ≠
      "Puppeteer script not found. Please ensure puppeteer_pdf.js is installed." := by
  have hmain :
      (get_pdf env print_format html options output (some "puppeteer")).2 =
        .error (.frappeThrow "PDF generation timed out.") ∧
      (get_pdf env print_format html options output (some "puppeteer")).1.spawned = true ∧
      (get_pdf env print_format html options output (some "puppeteer")).1.childRunning = false ∧
      (get_pdf env print_format html options output (some "puppeteer")).1.fileWrites = [] ∧
      (get_pdf env print_format html options output (some "puppeteer")).1.streamWrites = [] ∧
      (get_pdf env print_format html options output (some "puppeteer")).1.tmpExists = false := by
    unfold get_pdf
    rw [if_neg (by simp)]
    by_cases happ : env.scriptAtApp
    · rw [if_pos happ]
      exact run_renderer_timeout env html options output _ popts hmap hsub
    · have hb : env.scriptAtBench = true := by
        rcases hscript with h | h
        · exact absurd h happ
        · exact h
      rw [if_neg happ, if_pos hb]
      exact run_renderer_timeout env html options output _ popts hmap hsub
  refine ⟨hmain.1, hmain.2.1, hmain.2.2.1, hmain.2.2.2.1, hmain.2.2.2.2.1, hmain.2.2.2.2.2,
    fun stderr => ?_, fun stderr => ?_, by decide⟩
  · exact string_ne_append_of_take_ne _ _ stderr 3 (by decide) (by decide)
  · exact string_ne_append_of_take_ne _ _ stderr 3 (by decide) (by decide)

/-- Witness for `c5_timeout_classified`: renderer present under the app
path, deadline fires, stream sink. -/
theorem c5_timeout_witness :
    (get_pdf
        { appPath := "/a", benchPath := "/b", scriptAtApp := true, scriptAtBench := false
          subproc := .timedOut }
        "fmt" "<html/>" [] .stream (some "puppeteer")).2 =
      .error (.frappeThrow "PDF generation timed out.") ∧
    (get_pdf
        { appPath := "/a", benchPath := "/b", scriptAtApp := true, scriptAtBench := false
          subproc := .timedOut }
        "fmt" "<html/>" [] .stream (some "puppeteer")).1.childRunning = false :=
  ⟨(c5_timeout_classified
      { appPath := "/a", benchPath := "/b", scriptAtApp := true, scriptAtBench := false
        subproc := .timedOut }
      "fmt" "<html/>" [] .stream {} (Or.inl rfl) (by decide) rfl).1,
   (c5_timeout_classified
      { appPath := "/a", benchPath := "/b", scriptAtApp := true, scriptAtBench := false
        subproc := .timedOut }
      "fmt" "<html/>" [] .stream {} (Or.inl rfl) (by decide) rfl).2.2.1⟩

/-! ### C6: renderer discovery -/

/-- C6: discovery checks the app-bundled path first and falls back to the
bench root; when the entry point exists at neither location the call
reports "Puppeteer script not found. Please ensure puppeteer_pdf.js is
installed." through `frappe.throw`, with no file written and no process
launched (the returned trace is the initial one), and the message names
the required setup step. -/
theorem c6_renderer_discovery (env : Env) (print_format html : String)
    (options : FrappeOptions) (output : OutputSink) :
    (env.scriptAtApp = true →
      (get_pdf env print_format html options output (some "puppeteer")).1.scriptUsed =
        some (env.appPath ++ "/puppeteer_pdf.js")) ∧
    (env.scriptAtApp = false → env.scriptAtBench = true →
      (get_pdf env print_format html options output (some "puppeteer")).1.scriptUsed =
        some (env.benchPath ++ "/puppeteer_pdf.js")) ∧
    (env.scriptAtApp = false → env.scriptAtBench = false →
      get_pdf env print_format html options output (some "puppeteer") =
        (initState,
         .error (.frappeThrow
           "Puppeteer script not found. Please ensure puppeteer_pdf.js is installed.")) ∧
      initState.spawned = false ∧ initState.tmpWritten = false ∧
      ∃ a b, ("Puppeteer script not found. Please ensure puppeteer_pdf.js is installed."
        : String) = a ++ "ensure puppeteer_pdf.js is installed." ++ b) := by
  refine ⟨fun h1 => ?_, fun h1 h2 => ?_, fun h1 h2 => ?_⟩
  · unfold get_pdf
    rw [if_neg (by simp), if_pos h1]
    exact run_renderer_scriptUsed env html options output _
  · unfold get_pdf
    rw [if_neg (by simp), if_neg (by simp [h1]), if_pos h2]
    exact run_renderer_scriptUsed env html options output _
  · refine ⟨?_, rfl, rfl, "Puppeteer script not found. Please ", "", by decide⟩
    unfold get_pdf
    rw [if_neg (by simp), if_neg (by simp [h1]), if_neg (by simp [h2])]

/-- Witness for `c6_renderer_discovery`: entry point at neither location. -/
theorem c6_discovery_witness :
    get_pdf
        { appPath := "/a", benchPath := "/b", scriptAtApp := false, scriptAtBench := false
          subproc := .timedOut }
        "fmt" "<html/>" [] .stream (some "puppeteer") =
      (initState,
       .error (.frappeThrow
         "Puppeteer script not found. Please ensure puppeteer_pdf.js is installed.")) :=
  ((c6_renderer_discovery
      { appPath := "/a", benchPath := "/b", scriptAtApp := false, scriptAtBench := false
        subproc := .timedOut }
      "fmt" "<html/>" [] .stream).2.2 rfl rfl).1

/-! ### C9: generator selector -/

/-- C9: with any selector other than `"puppeteer"` the call is a no-op
returning `None`: no temp file, no process, no sink modification — the
effect trace is the initial one. -/
theorem c9_noop_on_other_generator (env : Env) (print_format html : String)
    (options : FrappeOptions) (output : OutputSink) (pdf_generator : Option String)
    (h : pdf_generator ≠ some "puppeteer") :
    get_pdf env print_format html options output pdf_generator = (initState, .ok none) ∧
    initState.tmpWritten = false ∧ initState.spawned = false ∧
    initState.fileWrites = [] ∧ initState.streamWrites = [] := by
  refine ⟨?_, rfl, rfl, rfl, rfl⟩
  unfold get_pdf
  rw [if_pos h]

/-- Witness for `c9_noop_on_other_generator` at the default selector
`None` (the host's default generator). -/
theorem c9_noop_witness :
    get_pdf
        { appPath := "/a", benchPath := "/b", scriptAtApp := true, scriptAtBench := true
          subproc := .exited 0 [1] "" }
        "fmt" "<html/>" [] .stream none = (initState, .ok none) :=
  (c9_noop_on_other_generator
      { appPath := "/a", benchPath := "/b", scriptAtApp := true, scriptAtBench := true
        subproc := .exited 0 [1] "" }
      "fmt" "<html/>" [] .stream none (by decide)).1

/-! ### C10: return value -/

/-- C10: on every input and every environment, `get_pdf` either returns
the Python value `None` or raises — it never returns the PDF bytes (or any
other value); success is observable only through the sink and the absence
of an error. -/
theorem c10_always_returns_none (env : Env) (print_format html : String)
    (options : FrappeOptions) (output : OutputSink) (pdf_generator : Option String) :
    (get_pdf env print_format html options output pdf_generator).2 = .ok none ∨
    ∃ e, (get_pdf env print_format html options output pdf_generator).2 = .error e := by
  unfold get_pdf
  by_cases hg : pdf_generator ≠ some "puppeteer"
  · rw [if_pos hg]
    exact Or.inl rfl
  · rw [if_neg hg]
    by_cases happ : env.scriptAtApp
    · rw [if_pos happ]
      exact run_renderer_none_or_error env html options output _
    · rw [if_neg happ]
      by_cases hb : env.scriptAtBench
      · rw [if_pos hb]
        exact run_renderer_none_or_error env html options output _
      · rw [if_neg hb]
        exact Or.inr ⟨_, rfl⟩

end PdfPuppeteer
